import Mathlib

/-!
Verification development for the webcam-capture-mvp capture-to-activation
pipeline.  The definitions below are shallow embeddings of the Python source:

* `src/audio/processor.py`  — `AudioProcessor` (voice-segment windowing,
  cooldown-gated activation-phrase recognition, chunk processing);
* `src/audio/vad.py`        — `SileroVAD` and `WebRTCVAD` backends;
* `src/capture/webcam_capture.py` — `_process_audio_stream` (stream
  segmentation) and `_monitor_capture` / `_restart_capture` (supervision).

Machine/string conventions: Python strings are `List Char`; PCM int16 samples
are `Int`; wall-clock and stream timestamps are `ℚ` (the source uses floats
only for time arithmetic and the properties at issue are exact comparisons).
External collaborators (the Whisper transcriber, the Silero model call, the
webrtcvad `is_speech` call) are oracles passed as function parameters; a
fallible oracle returns `Option`/`Except`, with the failure constructor
standing for a raised exception.
-/

/-- Characters of a Python string. -/
abbrev PyStr := List Char

/-- Models Python `str.lower()`.  `Char.toLower` agrees with Python on the
ASCII range, which is all the activation-phrase machinery uses. -/
def py_lower (s : PyStr) : PyStr := s.map Char.toLower

/-- Models Python `str.strip()`: drop whitespace from both ends. -/
def py_strip (s : PyStr) : PyStr :=
  ((s.dropWhile Char.isWhitespace).reverse.dropWhile Char.isWhitespace).reverse

/-- Models the Python expression `needle in hay` on strings: `needle` occurs
as a contiguous substring of `hay`. -/
def py_in (needle hay : PyStr) : Bool :=
  (List.range (hay.length + 1)).any fun i => needle.isPrefixOf (hay.drop i)

/-- One `vault_writer.write_transcription(...)` record made by
`AudioProcessor._check_for_activation_phrases` (processor.py:199-205): the
transcript text verbatim, the `is_activation` flag, and the matched phrase
passed as `activation_command` (or `None`). -/
structure TranscriptionEvent where
  text : PyStr
  is_activation : Bool
  activation_command : Option PyStr
deriving DecidableEq

/-- Instrumentation: one `await handler()` call made on an activation match
(processor.py:190), logged with the wall-clock time of the attempt and the
handler's command tag. -/
structure DispatchRecord where
  time : ℚ
  handler : PyStr
deriving DecidableEq

/-- The integer counters of `AudioProcessor.stats` (processor.py:54-59).
`processing_time_total` is wall-clock float accounting and is not modelled. -/
structure ProcStats where
  chunks_processed : Nat
  voice_segments_detected : Nat
  activations_detected : Nat
deriving DecidableEq

/-- One element of `AudioProcessor.voice_segments` (processor.py:136-140). -/
structure VoiceSegment where
  audio : List Int
  timestamp : ℚ
  duration : ℚ
deriving DecidableEq

/-- The mutable state of `AudioProcessor`, plus the two instrumentation logs
(`events`, `dispatched`) recording the calls it makes to the vault writer and
to activation handlers. -/
structure ProcState where
  is_running : Bool
  audio_buffer : List Int
  voice_segments : List VoiceSegment
  last_activation_time : ℚ
  stats : ProcStats
  events : List TranscriptionEvent
  dispatched : List DispatchRecord
deriving DecidableEq

/-- State of `AudioProcessor` as built by `__init__` (processor.py:39-58):
not running, empty buffers, `last_activation_time = 0`, zeroed counters. -/
def procInit : ProcState :=
  { is_running := false
    audio_buffer := []
    voice_segments := []
    last_activation_time := 0
    stats := ⟨0, 0, 0⟩
    events := []
    dispatched := [] }

/-- The audio a recognition attempt transcribes: the concatenation of the
most recent five voice segments, `np.concatenate([seg["audio"] for seg in
self.voice_segments[-5:]])` (processor.py:171). -/
def combined_recent_audio (s : ProcState) : List Int :=
  ((s.voice_segments.drop (s.voice_segments.length - 5)).map VoiceSegment.audio).flatten

/-- Models `AudioProcessor._check_for_activation_phrases`
(processor.py:161-208).  `current_time` is the `time.time()` read at the top
of the attempt; `transcribe` is the `_transcribe_audio` collaborator, whose
`none` stands for a `None` transcript (no model, or a caught transcription
error).  On gate (`current_time - last_activation_time < cooldown_sec`) the
attempt is skipped entirely.  Otherwise the last five voice segments are
concatenated and transcribed; a `None` or empty transcript records nothing.
On a non-empty transcript the phrase table is scanned in registration order
for the first phrase contained in the lowercased, stripped transcript; a
match dispatches the handler once, sets the cooldown timestamp, bumps
`activations_detected` and records a `matched` event; no match records a
non-activation event and leaves the cooldown state alone. -/
def check_for_activation_phrases (cooldown_sec : ℚ)
    (activation_phrases : List (PyStr × PyStr))
    (transcribe : List Int → Option PyStr) (current_time : ℚ)
    (s : ProcState) : ProcState :=
  if current_time - s.last_activation_time < cooldown_sec then s
  else
    match transcribe (combined_recent_audio s) with
    | none => s
    | some text =>
        if text = [] then s
        else
          let text_lower := py_strip (py_lower text)
          match activation_phrases.find? (fun pr => py_in pr.1 text_lower) with
          | some pr =>
              { s with
                dispatched := s.dispatched ++ [⟨current_time, pr.2⟩]
                last_activation_time := current_time
                stats := { s.stats with
                           activations_detected := s.stats.activations_detected + 1 }
                events := s.events ++ [⟨text, true, some pr.1⟩] }
          | none => { s with events := s.events ++ [⟨text, false, none⟩] }

/-- Models `AudioProcessor._handle_voice_detected` (processor.py:132-153):
append the new segment, evict segments at or before `timestamp - 10.0`
(the filter keeps `seg["timestamp"] > cutoff_time`), bump the counter, and
run the activation check once at least 3 segments are retained. -/
def handle_voice_detected (sample_rate cooldown_sec : ℚ)
    (activation_phrases : List (PyStr × PyStr))
    (transcribe : List Int → Option PyStr) (current_time : ℚ)
    (audio_array : List Int) (timestamp : ℚ) (s : ProcState) : ProcState :=
  let seg : VoiceSegment := ⟨audio_array, timestamp, (audio_array.length : ℚ) / sample_rate⟩
  let cutoff_time := timestamp - 10
  let voice_segments :=
    (s.voice_segments ++ [seg]).filter fun g => decide (cutoff_time < g.timestamp)
  let s1 := { s with
              voice_segments := voice_segments
              stats := { s.stats with
                         voice_segments_detected := s.stats.voice_segments_detected + 1 } }
  if 3 ≤ voice_segments.length then
    check_for_activation_phrases cooldown_sec activation_phrases transcribe current_time s1
  else s1

/-- Runs a sequence of recognition attempts (`_check_for_activation_phrases`
calls) in order; each attempt carries its `time.time()` reading and the
transcription oracle in effect for it. -/
def run_attempts (cooldown_sec : ℚ) (activation_phrases : List (PyStr × PyStr)) :
    List (ℚ × (List Int → Option PyStr)) → ProcState → ProcState
  | [], s => s
  | a :: rest, s =>
      run_attempts cooldown_sec activation_phrases rest
        (check_for_activation_phrases cooldown_sec activation_phrases a.2 a.1 s)

/-- The default activation-phrase table: `Settings.activation.phrases`
(main.py:58-64) in declaration order, paired with the handler each phrase is
wired to in `AudioProcessor.__init__` (processor.py:43-49). -/
def default_activation_phrases : List (PyStr × PyStr) :=
  [("computer start recording".toList, "start_recording".toList),
   ("computer mark important".toList, "mark_important".toList),
   ("computer analyze this".toList, "analyze_content".toList),
   ("computer show status".toList, "show_status".toList),
   ("computer pause recording".toList, "pause_recording".toList)]

/-- The integer counters of the `stats` dict shared by both VAD backends
(vad.py:53-58, 193-198).  `processing_time_total` is wall-clock float
accounting and is not modelled. -/
structure VadStats where
  detections_total : Nat
  voice_detected : Nat
  silence_detected : Nat
deriving DecidableEq

/-- Models `SileroVAD.detect_voice_activity` (vad.py:97-141).  `model` is the
loaded Silero handle (`none` before `initialize()` succeeds); the model call
itself is an oracle on the float tensor, with `Except.error` standing for a
raised exception.  Int16 samples are cast exactly into the tensor (`astype`
of int16 into float32 is exact); frames shorter than 512 samples are
zero-padded on the right.  On a raised exception the handler returns `False`
with the statistics untouched (the updates at vad.py:129-135 are skipped). -/
def silero_detect_voice_activity (threshold : ℚ)
    (model : Option (List ℚ → Except Unit ℚ))
    (stats : VadStats) (audio : List Int) : Bool × VadStats :=
  match model with
  | none => (false, stats)
  | some m =>
      let audio_tensor := audio.map fun x => (x : ℚ)
      let audio_tensor :=
        if audio_tensor.length < 512 then
          audio_tensor ++ List.replicate (512 - audio_tensor.length) 0
        else audio_tensor
      match m audio_tensor with
      | Except.error _ => (false, stats)
      | Except.ok confidence =>
          let has_voice := decide (threshold < confidence)
          let stats :=
            { stats with
              detections_total := stats.detections_total + 1
              voice_detected :=
                if has_voice then stats.voice_detected + 1 else stats.voice_detected
              silence_detected :=
                if has_voice then stats.silence_detected else stats.silence_detected + 1 }
          (has_voice, stats)

/-- The complete fixed-size sub-frames of an audio buffer, in order: the
slices taken by the loop at vad.py:243-247 that pass the
`len(frame_bytes) == self.frame_size * 2` completeness check.  The source
slices the int16 byte string in steps of `frame_size * 2` bytes; with two
bytes per sample this is exactly successive `frame_size`-sample slices. -/
def sub_frames (frame_size : Nat) (audio : List Int) : List (List Int) :=
  if _h : frame_size = 0 ∨ audio.length < frame_size then []
  else
    audio.take frame_size :: sub_frames frame_size (audio.drop frame_size)
termination_by audio.length
decreasing_by
  simp only [List.length_drop]
  omega

/-- Models `WebRTCVAD.detect_voice_activity` (vad.py:220-277).  `vad` is the
`webrtcvad.Vad` handle (`none` before `initialize()`); `is_speech` is the
library call on one complete sub-frame, `none` standing for a raised
exception (caught at vad.py:253-255 with `continue`, so the sub-frame counts
toward neither counter).  An unsupported sample rate returns `False` before
any counting or statistics update.  `frame_size` is computed from the sample
rate as in `__init__` (vad.py:189-190, 30 ms sub-frames); the frame is voice
when sub-frames were counted and their voice ratio strictly exceeds 0.3. -/
def webrtc_detect_voice_activity (sample_rate : ℕ)
    (vad : Option (List Int → Option Bool))
    (stats : VadStats) (audio : List Int) : Bool × VadStats :=
  match vad with
  | none => (false, stats)
  | some is_speech =>
      if sample_rate ∈ [8000, 16000, 32000, 48000] then
        let frame_size := sample_rate * 30 / 1000
        let frames := sub_frames frame_size audio
        let voice_frames := frames.countP fun f => is_speech f = some true
        let total_frames := frames.countP fun f => (is_speech f).isSome
        let has_voice :=
          if 0 < total_frames then
            decide ((3 : ℚ) / 10 < (voice_frames : ℚ) / (total_frames : ℚ))
          else false
        let stats :=
          { stats with
            detections_total := stats.detections_total + 1
            voice_detected :=
              if has_voice then stats.voice_detected + 1 else stats.voice_detected
            silence_detected :=
              if has_voice then stats.silence_detected else stats.silence_detected + 1 }
        (has_voice, stats)
      else (false, stats)

/-- State of an `AudioProcessor` paired with the statistics of the VAD
backend it owns. -/
structure Pipeline where
  proc : ProcState
  vad_stats : VadStats
deriving DecidableEq

/-- Models `AudioProcessor.process_chunk` (processor.py:102-130).  When the
processor is not running it returns immediately, touching nothing.
Otherwise: the int16 samples are appended to the circular buffer (a deque
with `maxlen`, so only the newest `maxlen` samples are kept), the frame is
classified by the backend (`detect`, threading the backend's statistics),
the voice / silence handler runs (`_handle_silence_detected` only calls the
`_mark_for_pruning` stub, a no-op), and `chunks_processed` is bumped. -/
def process_chunk (maxlen : Nat) (sample_rate cooldown_sec : ℚ)
    (activation_phrases : List (PyStr × PyStr))
    (transcribe : List Int → Option PyStr)
    (detect : VadStats → List Int → Bool × VadStats)
    (current_time : ℚ) (audio_array : List Int) (timestamp : ℚ)
    (p : Pipeline) : Pipeline :=
  if p.proc.is_running = false then p
  else
    let buf := p.proc.audio_buffer ++ audio_array
    let buf := buf.drop (buf.length - maxlen)
    let dv := detect p.vad_stats audio_array
    let proc1 := { p.proc with audio_buffer := buf }
    let proc2 :=
      if dv.1 then
        handle_voice_detected sample_rate cooldown_sec activation_phrases transcribe
          current_time audio_array timestamp proc1
      else proc1
    ⟨{ proc2 with
       stats := { proc2.stats with chunks_processed := proc2.stats.chunks_processed + 1 } },
     dv.2⟩

/-- Feeds a list of frames through `process_chunk` in arrival order; each
frame carries the wall-clock reading and the stream timestamp passed with
it. -/
def ingest_frames (maxlen : Nat) (sample_rate cooldown_sec : ℚ)
    (activation_phrases : List (PyStr × PyStr))
    (transcribe : List Int → Option PyStr)
    (detect : VadStats → List Int → Bool × VadStats) :
    List (List Int × ℚ × ℚ) → Pipeline → Pipeline
  | [], p => p
  | f :: rest, p =>
      ingest_frames maxlen sample_rate cooldown_sec activation_phrases transcribe detect rest
        (process_chunk maxlen sample_rate cooldown_sec activation_phrases transcribe detect
          f.2.1 f.1 f.2.2 p)

/-- Models the accumulation loop of `WebcamCapture._process_audio_stream`
(webcam_capture.py:150-181) over a finite sequence of pipe reads.  Each read
returns at most `chunk_size = 1024` bytes; an empty read means end of stream
and breaks the loop, discarding whatever partial data the accumulator holds.
After a read, one 32000-byte frame (`buffer[:32000]`) is emitted to
`process_chunk` whenever the accumulator holds at least 32000 bytes, and the
emitted bytes are removed.  The result is the list of emitted frames paired
with the bytes left in the accumulator when the loop ended. -/
def process_audio_stream_loop (buffer : List UInt8) :
    List (List UInt8) → List (List UInt8) × List UInt8
  | [] => ([], buffer)
  | chunk :: rest =>
      if chunk = [] then ([], buffer)
      else
        let buffer := buffer ++ chunk
        if 32000 ≤ buffer.length then
          let emitted := process_audio_stream_loop (buffer.drop 32000) rest
          (buffer.take 32000 :: emitted.1, emitted.2)
        else process_audio_stream_loop buffer rest

/-- The frames `_process_audio_stream` hands to `process_chunk`, for a given
sequence of pipe reads, starting from an empty accumulator
(webcam_capture.py:153). -/
def process_audio_stream (reads : List (List UInt8)) : List (List UInt8) :=
  (process_audio_stream_loop [] reads).1

/-- State of the `WebcamCapture` supervisor as `_monitor_capture` sees it:
the `is_recording` flag, whether a process handle is present, and an
instrumentation counter of `_restart_capture` invocations.  The source keeps
no restart counter and has no failed/terminal status flag; `is_recording`
and `process` are its only loop-relevant state (webcam_capture.py:29-30). -/
structure CaptureState where
  is_recording : Bool
  process_present : Bool
  restart_calls : Nat
deriving DecidableEq

/-- One iteration of the `while self.is_recording` monitor loop
(webcam_capture.py:191-211), given what this tick's checks observe:
`process_dead` is `poll() is not None` and `heartbeat_stale` is a heartbeat
older than 60 s.  A dead process triggers `_restart_capture` and `continue`;
otherwise a stale heartbeat triggers `_restart_capture`.  No attempt counter
is consulted and no terminal state exists: the loop keeps monitoring. -/
def monitor_tick (process_dead heartbeat_stale : Bool) (s : CaptureState) : CaptureState :=
  if s.is_recording = false then s
  else if s.process_present = false then s
  else if process_dead then { s with restart_calls := s.restart_calls + 1 }
  else if heartbeat_stale then { s with restart_calls := s.restart_calls + 1 }
  else s

/-- Runs `n` monitor iterations starting at tick index `k`; `dead_at i` and
`stale_at i` give what the checks observe at tick `i`. -/
def monitor_run (dead_at stale_at : ℕ → Bool) : ℕ → ℕ → CaptureState → CaptureState
  | _, 0, s => s
  | k, n + 1, s =>
      monitor_run dead_at stale_at (k + 1) n (monitor_tick (dead_at k) (stale_at k) s)

/-- The setting `SystemSettings.max_restart_attempts` (main.py:77): the configured
restart-attempt bound.  Declared in the configuration model but never read
by `_monitor_capture` or `_restart_capture`. -/
def max_restart_attempts : ℕ := 3

/-- A recognition attempt never touches the voice-segment buffer: every
branch of `_check_for_activation_phrases` leaves `voice_segments` alone. -/
theorem check_for_activation_phrases_voice_segments (cooldown_sec : ℚ)
    (table : List (PyStr × PyStr)) (tr : List Int → Option PyStr) (t : ℚ)
    (s : ProcState) :
    (check_for_activation_phrases cooldown_sec table tr t s).voice_segments
      = s.voice_segments := by
  unfold check_for_activation_phrases
  split
  · rfl
  · dsimp only
    split
    · rfl
    · split
      · rfl
      · split <;> rfl

/-- CLAIM C9 (implicit — not-running no-op): if the audio processor is not
running, `process_chunk` returns immediately and the whole pipeline state —
audio buffer, voice segments, counters, cooldown timestamp, VAD statistics,
event and dispatch logs — is unchanged; no classification, transcription or
handler dispatch occurs. -/
theorem C9_not_running_noop (maxlen : Nat) (sample_rate cooldown_sec : ℚ)
    (table : List (PyStr × PyStr)) (tr : List Int → Option PyStr)
    (detect : VadStats → List Int → Bool × VadStats)
    (current_time : ℚ) (audio : List Int) (timestamp : ℚ) (p : Pipeline)
    (h : p.proc.is_running = false) :
    process_chunk maxlen sample_rate cooldown_sec table tr detect
      current_time audio timestamp p = p := by
  unfold process_chunk
  rw [h]
  rfl

/-- Witness for C9 at a concrete input: the freshly constructed processor is
not running and a chunk fed to it leaves the pipeline untouched. -/
theorem C9_witness :
    process_chunk 480000 16000 1 default_activation_phrases (fun _ => none)
      (fun st _ => (false, st)) 0 [7] 0 ⟨procInit, ⟨0, 0, 0⟩⟩
      = ⟨procInit, ⟨0, 0, 0⟩⟩ :=
  C9_not_running_noop 480000 16000 1 default_activation_phrases (fun _ => none)
    (fun st _ => (false, st)) 0 [7] 0 ⟨procInit, ⟨0, 0, 0⟩⟩ rfl

/-- CLAIM C10 (implicit — pre-initialization safety): with no backend handle
loaded (`model` / `vad` is `None`, i.e. before `initialize()` succeeded),
both `SileroVAD.detect_voice_activity` and `WebRTCVAD.detect_voice_activity`
return `False` for every frame, without raising and without updating any
statistics counter. -/
theorem C10_pre_init_safe (threshold : ℚ) (sample_rate : ℕ) (stats : VadStats)
    (audio : List Int) :
    silero_detect_voice_activity threshold none stats audio = (false, stats) ∧
    webrtc_detect_voice_activity sample_rate none stats audio = (false, stats) :=
  ⟨rfl, rfl⟩

/-- CLAIM C2 (restart bound — the code has no bound): when every health check
finds the subprocess dead (`poll()` returns a non-zero exit code each time),
the monitor loop calls `_restart_capture` at every single tick: after `n`
ticks it has performed `n` restarts, `is_recording` is still `true`, and no
failed/terminal state exists to enter.  In particular after
`max_restart_attempts + 1 = 4` ticks the supervisor has already exceeded the
configured bound of 3 and is still monitoring — it retries indefinitely,
contradicting the claimed bounded restart policy. -/
theorem C2_restart_unbounded :
    (∀ (n k c : ℕ),
        monitor_run (fun _ => true) (fun _ => false) k n ⟨true, true, c⟩
          = ⟨true, true, c + n⟩) ∧
    monitor_run (fun _ => true) (fun _ => false) 0 (max_restart_attempts + 1)
        ⟨true, true, 0⟩ = ⟨true, true, 4⟩ ∧
    max_restart_attempts < 4 := by
  have main : ∀ (n k c : ℕ),
      monitor_run (fun _ => true) (fun _ => false) k n ⟨true, true, c⟩
        = ⟨true, true, c + n⟩ := by
    intro n
    induction n with
    | zero => intro k c; rfl
    | succ m ih =>
        intro k c
        have hstep : monitor_tick true false ⟨true, true, c⟩ = ⟨true, true, c + 1⟩ := rfl
        calc monitor_run (fun _ => true) (fun _ => false) k (m + 1) ⟨true, true, c⟩
            = monitor_run (fun _ => true) (fun _ => false) (k + 1) m ⟨true, true, c + 1⟩ := by
              rw [monitor_run, hstep]
          _ = ⟨true, true, c + 1 + m⟩ := ih (k + 1) (c + 1)
          _ = ⟨true, true, c + (m + 1)⟩ := by rw [Nat.add_assoc, Nat.add_comm 1 m]
  exact ⟨main, main (max_restart_attempts + 1) 0 0, by decide⟩

/-- CLAIM C4 (window retention invariant): immediately after any voice-segment
append (`_handle_voice_detected`), with `now` the appended segment's
timestamp, no retained segment has a timestamp older than
`now - 10` seconds — for every prior processor state, i.e. after every append
of any append sequence. -/
theorem C4_window_retention (sample_rate cooldown_sec : ℚ)
    (table : List (PyStr × PyStr)) (tr : List Int → Option PyStr)
    (current_time : ℚ) (audio : List Int) (timestamp : ℚ) (s : ProcState)
    (g : VoiceSegment)
    (hg : g ∈ (handle_voice_detected sample_rate cooldown_sec table tr
                current_time audio timestamp s).voice_segments) :
    ¬ (g.timestamp < timestamp - 10) := by
  have hvs : (handle_voice_detected sample_rate cooldown_sec table tr
                current_time audio timestamp s).voice_segments
      = (s.voice_segments
          ++ [(⟨audio, timestamp, (audio.length : ℚ) / sample_rate⟩ : VoiceSegment)]).filter
            (fun q => decide (timestamp - 10 < q.timestamp)) := by
    unfold handle_voice_detected
    dsimp only
    split
    · rw [check_for_activation_phrases_voice_segments]
    · rfl
  rw [hvs] at hg
  have hpred := (List.mem_filter.mp hg).2
  simp only [decide_eq_true_eq] at hpred
  linarith

/-- Witness for C4 at a concrete input: appending a segment at time 20 to the
fresh processor retains exactly that segment, and its timestamp is not older
than the 10-second window. -/
theorem C4_witness :
    ¬ ((⟨[1], 20, 1 / 16000⟩ : VoiceSegment).timestamp < 20 - 10) := by
  refine C4_window_retention 16000 1 [] (fun _ => none) 0 [1] 20 procInit
    ⟨[1], 20, 1 / 16000⟩ ?_
  simp +decide [handle_voice_detected, check_for_activation_phrases, procInit]

/-- Equation lemma: a gated attempt is skipped entirely. -/
theorem check_skip (cooldown_sec : ℚ) (table : List (PyStr × PyStr))
    (tr : List Int → Option PyStr) (t : ℚ) (s : ProcState)
    (hgate : t - s.last_activation_time < cooldown_sec) :
    check_for_activation_phrases cooldown_sec table tr t s = s := by
  unfold check_for_activation_phrases
  rw [if_pos hgate]

/-- Equation lemma: a `None` transcript ends the attempt with no state
change. -/
theorem check_none (cooldown_sec : ℚ) (table : List (PyStr × PyStr))
    (tr : List Int → Option PyStr) (t : ℚ) (s : ProcState)
    (hgate : ¬ (t - s.last_activation_time < cooldown_sec))
    (htr : tr (combined_recent_audio s) = none) :
    check_for_activation_phrases cooldown_sec table tr t s = s := by
  unfold check_for_activation_phrases
  rw [if_neg hgate, htr]

/-- Equation lemma: an empty transcript ends the attempt with no state
change. -/
theorem check_empty (cooldown_sec : ℚ) (table : List (PyStr × PyStr))
    (tr : List Int → Option PyStr) (t : ℚ) (s : ProcState)
    (hgate : ¬ (t - s.last_activation_time < cooldown_sec))
    (htr : tr (combined_recent_audio s) = some []) :
    check_for_activation_phrases cooldown_sec table tr t s = s := by
  unfold check_for_activation_phrases
  rw [if_neg hgate, htr]
  dsimp only
  rw [if_pos rfl]

/-- Equation lemma: a non-gated attempt with a non-empty transcript and no
matching phrase records exactly one non-activation event and changes nothing
else. -/
theorem check_no_match_eq (cooldown_sec : ℚ) (table : List (PyStr × PyStr))
    (tr : List Int → Option PyStr) (t : ℚ) (s : ProcState) (text : PyStr)
    (hgate : ¬ (t - s.last_activation_time < cooldown_sec))
    (htr : tr (combined_recent_audio s) = some text)
    (hne : text ≠ [])
    (hnm : table.find? (fun pr => py_in pr.1 (py_strip (py_lower text))) = none) :
    check_for_activation_phrases cooldown_sec table tr t s
      = { s with events := s.events ++ [⟨text, false, none⟩] } := by
  unfold check_for_activation_phrases
  rw [if_neg hgate, htr]
  dsimp only
  rw [if_neg hne, hnm]

/-- Equation lemma: a non-gated attempt whose non-empty transcript matches
`(phrase, handler)` first dispatches that handler once, consumes the
cooldown, bumps `activations_detected` and records one matched event with
the transcript verbatim. -/
theorem check_match_eq (cooldown_sec : ℚ) (table : List (PyStr × PyStr))
    (tr : List Int → Option PyStr) (t : ℚ) (s : ProcState)
    (text phrase handler : PyStr)
    (hgate : ¬ (t - s.last_activation_time < cooldown_sec))
    (htr : tr (combined_recent_audio s) = some text)
    (hne : text ≠ [])
    (hfm : table.find? (fun pr => py_in pr.1 (py_strip (py_lower text)))
            = some (phrase, handler)) :
    check_for_activation_phrases cooldown_sec table tr t s
      = { s with
          dispatched := s.dispatched ++ [⟨t, handler⟩]
          last_activation_time := t
          stats := { s.stats with
                     activations_detected := s.stats.activations_detected + 1 }
          events := s.events ++ [⟨text, true, some phrase⟩] } := by
  unfold check_for_activation_phrases
  rw [if_neg hgate, htr]
  dsimp only
  rw [if_neg hne, hfm]

/-- The prefix test succeeds exactly when the candidate equals the
corresponding initial slice of the list. -/
theorem isPrefixOf_take (n : PyStr) :
    ∀ l : PyStr, n.isPrefixOf l = true ↔ l.take n.length = n := by
  induction n with
  | nil => intro l; simp [List.isPrefixOf]
  | cons a n ih =>
      intro l
      cases l with
      | nil => simp [List.isPrefixOf]
      | cons b l =>
          simp only [List.isPrefixOf, Bool.and_eq_true, beq_iff_eq,
            List.length_cons, List.take_succ_cons, List.cons.injEq, ih l]
          constructor
          · rintro ⟨h1, h2⟩; exact ⟨h1.symm, h2⟩
          · rintro ⟨h1, h2⟩; exact ⟨h1.symm, h2⟩

/-- Python substring membership: `py_in needle hay` succeeds exactly when the
needle occurs contiguously inside the hay. -/
theorem py_in_iff (needle hay : PyStr) :
    py_in needle hay = true ↔ ∃ u v, hay = u ++ needle ++ v := by
  unfold py_in
  rw [List.any_eq_true]
  constructor
  · rintro ⟨i, _, hpre⟩
    rw [isPrefixOf_take] at hpre
    refine ⟨hay.take i, (hay.drop i).drop needle.length, ?_⟩
    have h2 : hay.drop i = needle ++ (hay.drop i).drop needle.length := by
      conv_lhs => rw [← List.take_append_drop needle.length (hay.drop i)]
      rw [hpre]
    conv_lhs => rw [← List.take_append_drop i hay, h2]
    rw [List.append_assoc]
  · rintro ⟨u, v, rfl⟩
    refine ⟨u.length, ?_, ?_⟩
    · rw [List.mem_range]
      simp only [List.append_assoc, List.length_append]
      omega
    · rw [isPrefixOf_take, List.append_assoc, List.drop_left, List.take_left]

/-- The element `find?` returns is the first satisfying one: the list splits
into a prefix of failing elements, the hit, and a remainder. -/
theorem find?_first {α : Type} (p : α → Bool) :
    ∀ (l : List α) (a : α), l.find? p = some a →
      ∃ u v, l = u ++ a :: v ∧ p a = true ∧ ∀ b ∈ u, p b = false := by
  intro l
  induction l with
  | nil => intro a h; simp [List.find?] at h
  | cons x xs ih =>
      intro a h
      by_cases hx : p x = true
      · rw [List.find?_cons_of_pos _ hx] at h
        obtain rfl : x = a := by injection h
        exact ⟨[], xs, rfl, hx, by intro b hb; cases hb⟩
      · have hx' : p x = false := by simpa using hx
        rw [List.find?_cons_of_neg _ (by simp [hx'])] at h
        obtain ⟨u, v, hl, hpa, hu⟩ := ih a h
        refine ⟨x :: u, v, by rw [hl]; rfl, hpa, ?_⟩
        intro b hb
        rcases List.mem_cons.mp hb with rfl | hb
        · exact hx'
        · exact hu b hb

/-- CLAIM C7 (no-match frame condition): a non-gated recognition attempt
whose non-empty transcript contains no configured phrase still records one
non-activation event carrying the transcript, dispatches no handler, and
leaves the cooldown timestamp unchanged — so any later attempt is gated
exactly as it would have been without this attempt. -/
theorem C7_no_match_event (cooldown_sec : ℚ) (table : List (PyStr × PyStr))
    (tr : List Int → Option PyStr) (t : ℚ) (s : ProcState) (text : PyStr)
    (hgate : ¬ (t - s.last_activation_time < cooldown_sec))
    (htr : ∀ au, tr au = some text)
    (hne : text ≠ [])
    (hnm : table.find? (fun pr => py_in pr.1 (py_strip (py_lower text))) = none) :
    (check_for_activation_phrases cooldown_sec table tr t s).events
        = s.events ++ [⟨text, false, none⟩] ∧
    (check_for_activation_phrases cooldown_sec table tr t s).dispatched
        = s.dispatched ∧
    (check_for_activation_phrases cooldown_sec table tr t s).last_activation_time
        = s.last_activation_time ∧
    ∀ t2 : ℚ,
      (t2 - (check_for_activation_phrases cooldown_sec table tr t s).last_activation_time
          < cooldown_sec)
        ↔ (t2 - s.last_activation_time < cooldown_sec) := by
  rw [check_no_match_eq cooldown_sec table tr t s text hgate (htr _) hne hnm]
  exact ⟨rfl, rfl, rfl, fun _ => Iff.rfl⟩

/-- Witness for C7 at a concrete input: transcript "hello there" matches no
default phrase; the attempt records one unmatched event and consumes no
cooldown. -/
theorem C7_witness :
    (check_for_activation_phrases 1 default_activation_phrases
        (fun _ => some "hello there".toList) 5 procInit).events
        = procInit.events ++ [⟨"hello there".toList, false, none⟩] ∧
    (check_for_activation_phrases 1 default_activation_phrases
        (fun _ => some "hello there".toList) 5 procInit).dispatched
        = procInit.dispatched ∧
    (check_for_activation_phrases 1 default_activation_phrases
        (fun _ => some "hello there".toList) 5 procInit).last_activation_time
        = procInit.last_activation_time ∧
    ∀ t2 : ℚ,
      (t2 - (check_for_activation_phrases 1 default_activation_phrases
          (fun _ => some "hello there".toList) 5 procInit).last_activation_time < 1)
        ↔ (t2 - procInit.last_activation_time < 1) :=
  C7_no_match_event 1 default_activation_phrases
    (fun _ => some "hello there".toList) 5 procInit "hello there".toList
    (by norm_num [procInit]) (fun _ => rfl) (by decide) (by decide)

/-- CLAIM C6 (first-match phrase dispatch): on a non-gated attempt with a
non-empty transcript, the transcript is lowercased and stripped and the
phrase table is scanned in registration order; the first phrase occurring as
a substring of the normalized transcript wins: its handler is dispatched
exactly once, the cooldown timestamp is set, and exactly one event is
recorded with `matched=true` and the transcript preserved verbatim.  The
matched entry is preceded in the table only by phrases that do not occur in
the normalized transcript, and its phrase occurs contiguously in it. -/
theorem C6_first_match_dispatch (cooldown_sec : ℚ)
    (table : List (PyStr × PyStr)) (tr : List Int → Option PyStr) (t : ℚ)
    (s : ProcState) (text phrase handler : PyStr)
    (hgate : ¬ (t - s.last_activation_time < cooldown_sec))
    (htr : ∀ au, tr au = some text)
    (hne : text ≠ [])
    (hfm : table.find? (fun pr => py_in pr.1 (py_strip (py_lower text)))
            = some (phrase, handler)) :
    check_for_activation_phrases cooldown_sec table tr t s
        = { s with
            dispatched := s.dispatched ++ [⟨t, handler⟩]
            last_activation_time := t
            stats := { s.stats with
                       activations_detected := s.stats.activations_detected + 1 }
            events := s.events ++ [⟨text, true, some phrase⟩] } ∧
    (∃ u v, table = u ++ (phrase, handler) :: v ∧
        py_in phrase (py_strip (py_lower text)) = true ∧
        ∀ q ∈ u, py_in q.1 (py_strip (py_lower text)) = false) ∧
    (∃ u v, py_strip (py_lower text) = u ++ phrase ++ v) := by
  refine ⟨check_match_eq cooldown_sec table tr t s text phrase handler hgate
    (htr _) hne hfm, ?_, ?_⟩
  · obtain ⟨u, v, hl, hp, hu⟩ := find?_first _ table (phrase, handler) hfm
    exact ⟨u, v, hl, hp, hu⟩
  · obtain ⟨_, _, _, hp, _⟩ := find?_first _ table (phrase, handler) hfm
    exact (py_in_iff phrase (py_strip (py_lower text))).mp hp

/-- Witness for C6: the spec's end-to-end example.  With phrase table
`[("computer start recording", "start_recording")]` and transcript
"computer start recording now please", the `start_recording` handler is
dispatched exactly once and one matched event with the verbatim transcript
is recorded. -/
theorem C6_witness :
    check_for_activation_phrases 1
        [("computer start recording".toList, "start_recording".toList)]
        (fun _ => some "computer start recording now please".toList) 100
        { procInit with is_running := true }
      = { { procInit with is_running := true } with
          dispatched := { procInit with is_running := true }.dispatched
              ++ [⟨100, "start_recording".toList⟩]
          last_activation_time := 100
          stats := { { procInit with is_running := true }.stats with
                     activations_detected :=
                       { procInit with is_running := true
                         }.stats.activations_detected + 1 }
          events := { procInit with is_running := true }.events
              ++ [⟨"computer start recording now please".toList, true,
                   some "computer start recording".toList⟩] } ∧
    (∃ u v, [("computer start recording".toList, "start_recording".toList)]
          = u ++ ("computer start recording".toList,
                  "start_recording".toList) :: v ∧
        py_in "computer start recording".toList
          (py_strip (py_lower "computer start recording now please".toList))
          = true ∧
        ∀ q ∈ u,
          py_in q.1
            (py_strip (py_lower "computer start recording now please".toList))
            = false) ∧
    (∃ u v, py_strip (py_lower "computer start recording now please".toList)
        = u ++ "computer start recording".toList ++ v) :=
  C6_first_match_dispatch 1
    [("computer start recording".toList, "start_recording".toList)]
    (fun _ => some "computer start recording now please".toList) 100
    { procInit with is_running := true }
    "computer start recording now please".toList
    "computer start recording".toList "start_recording".toList
    (by norm_num [procInit]) (fun _ => rfl) (by decide) (by decide)

/-- Case analysis of one recognition attempt: either the dispatch log and the
cooldown timestamp are both untouched, or the attempt was not gated and it
appended exactly one dispatch at the attempt time and set the cooldown
timestamp to that time. -/
theorem check_cases (cooldown_sec : ℚ) (table : List (PyStr × PyStr))
    (tr : List Int → Option PyStr) (t : ℚ) (s : ProcState) :
    ((check_for_activation_phrases cooldown_sec table tr t s).dispatched
        = s.dispatched ∧
     (check_for_activation_phrases cooldown_sec table tr t s).last_activation_time
        = s.last_activation_time) ∨
    (cooldown_sec ≤ t - s.last_activation_time ∧
     ∃ h : PyStr,
       (check_for_activation_phrases cooldown_sec table tr t s).dispatched
          = s.dispatched ++ [⟨t, h⟩] ∧
       (check_for_activation_phrases cooldown_sec table tr t s).last_activation_time
          = t) := by
  by_cases hg : t - s.last_activation_time < cooldown_sec
  · rw [check_skip cooldown_sec table tr t s hg]
    exact Or.inl ⟨rfl, rfl⟩
  · cases htr : tr (combined_recent_audio s) with
    | none =>
        rw [check_none cooldown_sec table tr t s hg htr]
        exact Or.inl ⟨rfl, rfl⟩
    | some text =>
        by_cases hte : text = []
        · subst hte
          rw [check_empty cooldown_sec table tr t s hg htr]
          exact Or.inl ⟨rfl, rfl⟩
        · cases hfm : table.find? (fun pr => py_in pr.1 (py_strip (py_lower text))) with
          | none =>
              rw [check_no_match_eq cooldown_sec table tr t s text hg htr hte hfm]
              exact Or.inl ⟨rfl, rfl⟩
          | some pr =>
              rw [check_match_eq cooldown_sec table tr t s text pr.1 pr.2 hg htr hte hfm]
              exact Or.inr ⟨not_lt.mp hg, pr.2, rfl, rfl⟩

/-- Invariant of attempt sequences: if all logged dispatches are pairwise at
least one cooldown apart and none is later than the cooldown timestamp, both
facts still hold after any sequence of recognition attempts. -/
theorem run_attempts_separation (cooldown_sec : ℚ) (hcd : 0 ≤ cooldown_sec)
    (table : List (PyStr × PyStr)) :
    ∀ (attempts : List (ℚ × (List Int → Option PyStr))) (s : ProcState),
      List.Pairwise (fun a b => a.time + cooldown_sec ≤ b.time) s.dispatched →
      (∀ d ∈ s.dispatched, d.time ≤ s.last_activation_time) →
      List.Pairwise (fun a b => a.time + cooldown_sec ≤ b.time)
          (run_attempts cooldown_sec table attempts s).dispatched ∧
      (∀ d ∈ (run_attempts cooldown_sec table attempts s).dispatched,
          d.time ≤ (run_attempts cooldown_sec table attempts s).last_activation_time) := by
  intro attempts
  induction attempts with
  | nil => intro s h1 h2; exact ⟨h1, h2⟩
  | cons a rest ih =>
      intro s h1 h2
      show List.Pairwise _ (run_attempts cooldown_sec table rest
          (check_for_activation_phrases cooldown_sec table a.2 a.1 s)).dispatched ∧ _
      rcases check_cases cooldown_sec table a.2 a.1 s with ⟨hd, hl⟩ | ⟨hge, h, hd, hl⟩
      · exact ih _ (by rw [hd]; exact h1) (by rw [hd, hl]; exact h2)
      · refine ih _ ?_ ?_
        · rw [hd, List.pairwise_append]
          refine ⟨h1, List.pairwise_singleton _ _, ?_⟩
          intro d hdme e hein
          rcases List.mem_singleton.mp hein with rfl
          have := h2 d hdme
          show d.time + cooldown_sec ≤ a.1
          linarith
        · rw [hd, hl]
          intro d hdm
          rcases List.mem_append.mp hdm with hdm | hdm
          · have := h2 d hdm
            linarith
          · rcases List.mem_singleton.mp hdm with rfl
            exact le_refl _

/-- CLAIM C1 (cooldown gating).  Three parts.  (i) An attempt made while
`now - last_activation_time < cooldown_seconds` is skipped entirely.
(ii) Starting from an empty dispatch log, after any sequence of recognition
attempts any two dispatched activations are at least one cooldown apart — at
most one activation dispatch occurs within any cooldown interval, no matter
how many attempts were made.  (iii) With `cooldown_seconds = 1`, two attempts
half a second apart whose transcripts would both match a configured phrase
produce exactly one handler dispatch and exactly one `matched=true` event. -/
theorem C1_cooldown_gating :
    (∀ (cooldown_sec : ℚ) (table : List (PyStr × PyStr))
        (tr : List Int → Option PyStr) (t : ℚ) (s : ProcState),
        t - s.last_activation_time < cooldown_sec →
        check_for_activation_phrases cooldown_sec table tr t s = s) ∧
    (∀ (cooldown_sec : ℚ) (table : List (PyStr × PyStr))
        (attempts : List (ℚ × (List Int → Option PyStr))) (s : ProcState),
        0 ≤ cooldown_sec → s.dispatched = [] →
        List.Pairwise (fun a b => a.time + cooldown_sec ≤ b.time)
          (run_attempts cooldown_sec table attempts s).dispatched) ∧
    (∀ (table : List (PyStr × PyStr)) (tr1 tr2 : List Int → Option PyStr)
        (t : ℚ) (s : ProcState) (text1 : PyStr),
        s.last_activation_time + 1 ≤ t →
        (∀ au, tr1 au = some text1) →
        text1 ≠ [] →
        (table.find? (fun pr => py_in pr.1 (py_strip (py_lower text1)))).isSome →
        (∀ au, ∃ tx, tr2 au = some tx ∧ tx ≠ [] ∧
            (table.find? (fun pr => py_in pr.1 (py_strip (py_lower tx)))).isSome) →
        (run_attempts 1 table [(t, tr1), (t + 1 / 2, tr2)] s).dispatched.length
            = s.dispatched.length + 1 ∧
        (run_attempts 1 table [(t, tr1), (t + 1 / 2, tr2)] s).events.countP
            (fun e => e.is_activation)
            = s.events.countP (fun e => e.is_activation) + 1) := by
  refine ⟨fun cd table tr t s hg => check_skip cd table tr t s hg, ?_, ?_⟩
  · intro cd table attempts s hcd hemp
    exact (run_attempts_separation cd hcd table attempts s
      (by rw [hemp]; exact List.Pairwise.nil)
      (by rw [hemp]; intro d hd; cases hd)).1
  · intro table tr1 tr2 t s text1 ht htr1 hne1 hfm1 _
    obtain ⟨pr, hpr⟩ := Option.isSome_iff_exists.mp hfm1
    have hgate1 : ¬ (t - s.last_activation_time < 1) := by
      intro hlt; linarith
    have hstep1 := check_match_eq 1 table tr1 t s text1 pr.1 pr.2 hgate1
      (htr1 _) hne1 (by rw [hpr])
    have hfin : run_attempts 1 table [(t, tr1), (t + 1 / 2, tr2)] s
        = { s with
            dispatched := s.dispatched ++ [⟨t, pr.2⟩]
            last_activation_time := t
            stats := { s.stats with
                       activations_detected := s.stats.activations_detected + 1 }
            events := s.events ++ [⟨text1, true, some pr.1⟩] } := by
      show run_attempts 1 table [(t + 1 / 2, tr2)]
          (check_for_activation_phrases 1 table tr1 t s) = _
      rw [hstep1]
      show check_for_activation_phrases 1 table tr2 (t + 1 / 2) _ = _
      exact check_skip 1 table tr2 (t + 1 / 2) _
        (by show (t + 1 / 2) - t < 1; norm_num)
    rw [hfin]
    constructor
    · show (s.dispatched ++ [(⟨t, pr.2⟩ : DispatchRecord)]).length
          = s.dispatched.length + 1
      rw [List.length_append, List.length_singleton]
    · show (s.events ++ [(⟨text1, true, some pr.1⟩ : TranscriptionEvent)]).countP
            (fun e => e.is_activation)
          = s.events.countP (fun e => e.is_activation) + 1
      rw [List.countP_append]
      rfl

/-- Witness for C1 at a concrete input: two matching attempts at times 100
and 100.5 under a 1-second cooldown yield exactly one dispatch and exactly
one matched event. -/
theorem C1_witness :
    (run_attempts 1 default_activation_phrases
        [(100, fun _ => some "computer start recording".toList),
         (100 + 1 / 2, fun _ => some "computer start recording".toList)]
        procInit).dispatched.length = procInit.dispatched.length + 1 ∧
    (run_attempts 1 default_activation_phrases
        [(100, fun _ => some "computer start recording".toList),
         (100 + 1 / 2, fun _ => some "computer start recording".toList)]
        procInit).events.countP (fun e => e.is_activation)
        = procInit.events.countP (fun e => e.is_activation) + 1 :=
  C1_cooldown_gating.2.2 default_activation_phrases
    (fun _ => some "computer start recording".toList)
    (fun _ => some "computer start recording".toList) 100 procInit
    "computer start recording".toList
    (by norm_num [procInit]) (fun _ => rfl) (by decide) (by decide)
    (fun _ => ⟨"computer start recording".toList, rfl, by decide, by decide⟩)

/-- A raised Silero model exception is caught: the frame is classified
`False` and the statistics updates are skipped. -/
theorem silero_error_closed (threshold : ℚ) (m : List ℚ → Except Unit ℚ)
    (hm : ∀ x, m x = Except.error ()) (stats : VadStats) (audio : List Int) :
    silero_detect_voice_activity threshold (some m) stats audio = (false, stats) := by
  unfold silero_detect_voice_activity
  dsimp only
  rw [hm]

/-- One chunk whose classification comes back `False` with untouched VAD
statistics takes the silence path: only the circular buffer and the
`chunks_processed` counter change. -/
theorem process_chunk_silence (maxlen : Nat) (sample_rate cooldown_sec : ℚ)
    (table : List (PyStr × PyStr)) (tr : List Int → Option PyStr)
    (detect : VadStats → List Int → Bool × VadStats)
    (t : ℚ) (audio : List Int) (ts : ℚ) (p : Pipeline)
    (hrun : p.proc.is_running = true)
    (hdet : detect p.vad_stats audio = (false, p.vad_stats)) :
    process_chunk maxlen sample_rate cooldown_sec table tr detect t audio ts p
      = ⟨{ p.proc with
           audio_buffer := (p.proc.audio_buffer ++ audio).drop
             ((p.proc.audio_buffer ++ audio).length - maxlen)
           stats := { p.proc.stats with
                      chunks_processed := p.proc.stats.chunks_processed + 1 } },
         p.vad_stats⟩ := by
  unfold process_chunk
  rw [hrun]
  rw [if_neg (by simp)]
  dsimp only
  rw [hdet]
  simp

/-- If the backend classifies every frame `False` without touching its own
statistics, the ingest loop processes every frame of any sequence on the
silence path: `chunks_processed` grows by the number of frames and nothing
else changes except the circular buffer. -/
theorem ingest_silence (maxlen : Nat) (sample_rate cooldown_sec : ℚ)
    (table : List (PyStr × PyStr)) (tr : List Int → Option PyStr)
    (detect : VadStats → List Int → Bool × VadStats)
    (hdet : ∀ stats audio, detect stats audio = (false, stats)) :
    ∀ (frames : List (List Int × ℚ × ℚ)) (p : Pipeline),
      p.proc.is_running = true →
      (ingest_frames maxlen sample_rate cooldown_sec table tr detect
          frames p).proc.stats.chunks_processed
          = p.proc.stats.chunks_processed + frames.length ∧
      (ingest_frames maxlen sample_rate cooldown_sec table tr detect
          frames p).proc.voice_segments = p.proc.voice_segments ∧
      (ingest_frames maxlen sample_rate cooldown_sec table tr detect
          frames p).proc.dispatched = p.proc.dispatched ∧
      (ingest_frames maxlen sample_rate cooldown_sec table tr detect
          frames p).vad_stats = p.vad_stats := by
  intro frames
  induction frames with
  | nil => intro p _; exact ⟨by simp [ingest_frames], rfl, rfl, rfl⟩
  | cons f rest ih =>
      intro p hrun
      have hstep := process_chunk_silence maxlen sample_rate cooldown_sec table tr
        detect f.2.1 f.1 f.2.2 p hrun (hdet p.vad_stats f.1)
      have hmain := ih
        (process_chunk maxlen sample_rate cooldown_sec table tr detect f.2.1 f.1 f.2.2 p)
        (by rw [hstep]; exact hrun)
      refine ⟨?_, ?_, ?_, ?_⟩
      · show (ingest_frames maxlen sample_rate cooldown_sec table tr detect rest
            (process_chunk maxlen sample_rate cooldown_sec table tr detect
              f.2.1 f.1 f.2.2 p)).proc.stats.chunks_processed
            = p.proc.stats.chunks_processed + (rest.length + 1)
        rw [hmain.1, hstep]
        show p.proc.stats.chunks_processed + 1 + rest.length
            = p.proc.stats.chunks_processed + (rest.length + 1)
        omega
      · show (ingest_frames maxlen sample_rate cooldown_sec table tr detect rest
            (process_chunk maxlen sample_rate cooldown_sec table tr detect
              f.2.1 f.1 f.2.2 p)).proc.voice_segments = p.proc.voice_segments
        rw [hmain.2.1, hstep]
      · show (ingest_frames maxlen sample_rate cooldown_sec table tr detect rest
            (process_chunk maxlen sample_rate cooldown_sec table tr detect
              f.2.1 f.1 f.2.2 p)).proc.dispatched = p.proc.dispatched
        rw [hmain.2.2.1, hstep]
      · show (ingest_frames maxlen sample_rate cooldown_sec table tr detect rest
            (process_chunk maxlen sample_rate cooldown_sec table tr detect
              f.2.1 f.1 f.2.2 p)).vad_stats = p.vad_stats
        rw [hmain.2.2.2, hstep]

/-- CLAIM C5 (fail-closed classification): when the Silero model raises on
every call, (i) each single frame classifies as `False` (treated as silence)
with the backend statistics untouched, and (ii) the ingest loop keeps
running: every frame of any frame sequence is still processed
(`chunks_processed` grows by the number of frames), no voice segment is
created, no handler is dispatched, and the VAD statistics stay unchanged. -/
theorem C5_fail_closed (threshold : ℚ) (m : List ℚ → Except Unit ℚ)
    (maxlen : Nat) (sample_rate cooldown_sec : ℚ)
    (table : List (PyStr × PyStr)) (tr : List Int → Option PyStr)
    (frames : List (List Int × ℚ × ℚ)) (p : Pipeline)
    (hm : ∀ x, m x = Except.error ())
    (hrun : p.proc.is_running = true) :
    (∀ (stats : VadStats) (audio : List Int),
        silero_detect_voice_activity threshold (some m) stats audio
          = (false, stats)) ∧
    (ingest_frames maxlen sample_rate cooldown_sec table tr
        (silero_detect_voice_activity threshold (some m)) frames p).proc.stats.chunks_processed
        = p.proc.stats.chunks_processed + frames.length ∧
    (ingest_frames maxlen sample_rate cooldown_sec table tr
        (silero_detect_voice_activity threshold (some m)) frames p).proc.voice_segments
        = p.proc.voice_segments ∧
    (ingest_frames maxlen sample_rate cooldown_sec table tr
        (silero_detect_voice_activity threshold (some m)) frames p).proc.dispatched
        = p.proc.dispatched ∧
    (ingest_frames maxlen sample_rate cooldown_sec table tr
        (silero_detect_voice_activity threshold (some m)) frames p).vad_stats
        = p.vad_stats := by
  exact ⟨silero_error_closed threshold m hm,
    ingest_silence maxlen sample_rate cooldown_sec table tr
      (silero_detect_voice_activity threshold (some m))
      (silero_error_closed threshold m hm) frames p hrun⟩

/-- Witness for C5 at a concrete input: an always-raising model, one frame,
running processor — the frame is processed, no voice, no dispatch, VAD stats
unchanged. -/
theorem C5_witness :
    (∀ (stats : VadStats) (audio : List Int),
        silero_detect_voice_activity (1 / 2) (some fun _ => Except.error ()) stats audio
          = (false, stats)) ∧
    (ingest_frames 480000 16000 1 default_activation_phrases (fun _ => none)
        (silero_detect_voice_activity (1 / 2) (some fun _ => Except.error ()))
        [([0], 0, 0)]
        ⟨{ procInit with is_running := true }, ⟨0, 0, 0⟩⟩).proc.stats.chunks_processed
        = ({ procInit with is_running := true } : ProcState).stats.chunks_processed + 1 ∧
    (ingest_frames 480000 16000 1 default_activation_phrases (fun _ => none)
        (silero_detect_voice_activity (1 / 2) (some fun _ => Except.error ()))
        [([0], 0, 0)]
        ⟨{ procInit with is_running := true }, ⟨0, 0, 0⟩⟩).proc.voice_segments
        = ({ procInit with is_running := true } : ProcState).voice_segments ∧
    (ingest_frames 480000 16000 1 default_activation_phrases (fun _ => none)
        (silero_detect_voice_activity (1 / 2) (some fun _ => Except.error ()))
        [([0], 0, 0)]
        ⟨{ procInit with is_running := true }, ⟨0, 0, 0⟩⟩).proc.dispatched
        = ({ procInit with is_running := true } : ProcState).dispatched ∧
    (ingest_frames 480000 16000 1 default_activation_phrases (fun _ => none)
        (silero_detect_voice_activity (1 / 2) (some fun _ => Except.error ()))
        [([0], 0, 0)]
        ⟨{ procInit with is_running := true }, ⟨0, 0, 0⟩⟩).vad_stats
        = (⟨0, 0, 0⟩ : VadStats) :=
  C5_fail_closed (1 / 2) (fun _ => Except.error ()) 480000 16000 1
    default_activation_phrases (fun _ => none) [([0], 0, 0)]
    ⟨{ procInit with is_running := true }, ⟨0, 0, 0⟩⟩
    (fun _ => rfl) rfl

/-- CLAIM C8 (heuristic backend decision rule): an initialized WebRTC backend
whose `is_speech` call never raises classifies a frame as voice exactly when
the sample rate is one of the four supported rates and the fraction of
complete 30 ms sub-frames classified as voice strictly exceeds 0.3; for an
unsupported sample rate the frame is not voice. -/
theorem C8_heuristic_decision (sample_rate : ℕ) (f : List Int → Option Bool)
    (stats : VadStats) (audio : List Int)
    (hf : ∀ fr, (f fr).isSome) :
    (webrtc_detect_voice_activity sample_rate (some f) stats audio).1 = true
      ↔ (sample_rate ∈ [8000, 16000, 32000, 48000] ∧
         0 < (sub_frames (sample_rate * 30 / 1000) audio).length ∧
         (3 : ℚ) / 10
           < ((sub_frames (sample_rate * 30 / 1000) audio).countP
                (fun fr => f fr = some true) : ℚ)
             / ((sub_frames (sample_rate * 30 / 1000) audio).length : ℚ)) := by
  unfold webrtc_detect_voice_activity
  dsimp only
  by_cases hsr : sample_rate ∈ [8000, 16000, 32000, 48000]
  · rw [if_pos hsr]
    dsimp only
    have htot : (sub_frames (sample_rate * 30 / 1000) audio).countP
        (fun fr => (f fr).isSome)
        = (sub_frames (sample_rate * 30 / 1000) audio).length :=
      List.countP_eq_length.mpr (fun a _ => hf a)
    rw [htot]
    by_cases hlen : 0 < (sub_frames (sample_rate * 30 / 1000) audio).length
    · rw [if_pos hlen]
      simp [hsr, hlen]
    · rw [if_neg hlen]
      simp [hlen]
  · rw [if_neg hsr]
    simp [hsr]

/-- Witness for C8 at a concrete input: 960 zero samples at 16 kHz under an
oracle that marks every sub-frame as speech — two complete sub-frames, voice
ratio 1 > 0.3. -/
theorem C8_witness :
    (webrtc_detect_voice_activity 16000 (some fun _ => some true) ⟨0, 0, 0⟩
        (List.replicate 960 0)).1 = true
      ↔ ((16000 : ℕ) ∈ [8000, 16000, 32000, 48000] ∧
         0 < (sub_frames (16000 * 30 / 1000) (List.replicate 960 0)).length ∧
         (3 : ℚ) / 10
           < ((sub_frames (16000 * 30 / 1000) (List.replicate 960 0)).countP
                (fun fr => (fun _ => some true : List Int → Option Bool) fr
                    = some true) : ℚ)
             / ((sub_frames (16000 * 30 / 1000) (List.replicate 960 0)).length : ℚ)) :=
  C8_heuristic_decision 16000 (fun _ => some true) ⟨0, 0, 0⟩
    (List.replicate 960 0) (fun _ => rfl)

/-- Every frame the accumulation loop emits is exactly 32000 bytes, whatever
the reads and the starting accumulator. -/
theorem loop_frames_length :
    ∀ (reads : List (List UInt8)) (buffer : List UInt8),
      ∀ fr ∈ (process_audio_stream_loop buffer reads).1, fr.length = 32000 := by
  intro reads
  induction reads with
  | nil => intro buffer fr hfr; cases hfr
  | cons c rest ih =>
      intro buffer fr hfr
      unfold process_audio_stream_loop at hfr
      by_cases hc : c = []
      · rw [if_pos hc] at hfr; cases hfr
      · rw [if_neg hc] at hfr
        dsimp only at hfr
        by_cases hlen : 32000 ≤ (buffer ++ c).length
        · rw [if_pos hlen] at hfr
          rcases List.mem_cons.mp hfr with rfl | hfr
          · rw [List.length_take]
            omega
          · exact ih _ fr hfr
        · rw [if_neg hlen] at hfr
          exact ih _ fr hfr

/-- The emitted frames followed by the final accumulator reproduce the whole
input stream (no reordering, no loss other than the final accumulator),
provided no read is empty before the end of the stream. -/
theorem loop_flatten :
    ∀ (reads : List (List UInt8)), (∀ c ∈ reads, c ≠ []) →
      ∀ buffer : List UInt8,
        (process_audio_stream_loop buffer reads).1.flatten
            ++ (process_audio_stream_loop buffer reads).2
          = buffer ++ reads.flatten := by
  intro reads
  induction reads with
  | nil => intro _ buffer; simp [process_audio_stream_loop]
  | cons c rest ih =>
      intro hne buffer
      have hc : c ≠ [] := hne c (List.mem_cons_self c rest)
      have hrest : ∀ d ∈ rest, d ≠ [] := fun d hd => hne d (List.mem_cons_of_mem c hd)
      unfold process_audio_stream_loop
      rw [if_neg hc]
      dsimp only
      by_cases hlen : 32000 ≤ (buffer ++ c).length
      · rw [if_pos hlen]
        dsimp only
        rw [List.flatten_cons, List.append_assoc, ih hrest ((buffer ++ c).drop 32000),
          ← List.append_assoc, List.take_append_drop, List.flatten_cons,
          ← List.append_assoc]
      · rw [if_neg hlen]
        rw [ih hrest (buffer ++ c), List.flatten_cons, List.append_assoc]

/-- With every read at most 1024 bytes (the `chunk_size` of the source), the
accumulator stays under one frame: in particular whatever remains when the
stream ends is an undersized partial frame. -/
theorem loop_remainder :
    ∀ (reads : List (List UInt8)), (∀ c ∈ reads, c.length ≤ 1024) →
      ∀ buffer : List UInt8, buffer.length < 32000 →
        (process_audio_stream_loop buffer reads).2.length < 32000 := by
  intro reads
  induction reads with
  | nil => intro _ buffer hb; exact hb
  | cons c rest ih =>
      intro hsz buffer hb
      have hc : c.length ≤ 1024 := hsz c (List.mem_cons_self c rest)
      have hrest : ∀ d ∈ rest, d.length ≤ 1024 := fun d hd => hsz d (List.mem_cons_of_mem c hd)
      unfold process_audio_stream_loop
      by_cases hce : c = []
      · rw [if_pos hce]; exact hb
      · rw [if_neg hce]
        dsimp only
        by_cases hlen : 32000 ≤ (buffer ++ c).length
        · rw [if_pos hlen]
          dsimp only
          refine ih hrest _ ?_
          rw [List.length_drop, List.length_append]
          omega
        · rw [if_neg hlen]
          refine ih hrest _ ?_
          omega

/-- CLAIM C3 (frame sizing): over any finite sequence of pipe reads, each
non-empty and of at most `chunk_size = 1024` bytes, the segmenter emits only
frames of exactly 32000 bytes, in stream order (their concatenation followed
by the leftover accumulator is exactly the input stream); at end of stream
the leftover is smaller than one frame and is discarded — it is never among
the frames handed to classification. -/
theorem C3_frame_sizing (reads : List (List UInt8))
    (h : ∀ c ∈ reads, c ≠ [] ∧ c.length ≤ 1024) :
    (∀ fr ∈ process_audio_stream reads, fr.length = 32000) ∧
    (process_audio_stream reads).flatten
        ++ (process_audio_stream_loop [] reads).2 = reads.flatten ∧
    (process_audio_stream_loop [] reads).2.length < 32000 := by
  refine ⟨fun fr hfr => loop_frames_length reads [] fr hfr, ?_, ?_⟩
  · have hfl := loop_flatten reads (fun c hc => (h c hc).1) []
    simpa using hfl
  · exact loop_remainder reads (fun c hc => (h c hc).2) [] (by simp)

/-- Witness for C3 at a concrete input: 42 reads of 1000 bytes each
(42000 bytes total) — every emitted frame is 32000 bytes, the stream is
reproduced in order, and the trailing 10000-byte remainder is discarded as
undersized. -/
theorem C3_witness :
    (∀ fr ∈ process_audio_stream (List.replicate 42 (List.replicate 1000 (0 : UInt8))),
        fr.length = 32000) ∧
    (process_audio_stream (List.replicate 42 (List.replicate 1000 (0 : UInt8)))).flatten
        ++ (process_audio_stream_loop []
              (List.replicate 42 (List.replicate 1000 (0 : UInt8)))).2
        = (List.replicate 42 (List.replicate 1000 (0 : UInt8))).flatten ∧
    (process_audio_stream_loop []
        (List.replicate 42 (List.replicate 1000 (0 : UInt8)))).2.length < 32000 :=
  C3_frame_sizing (List.replicate 42 (List.replicate 1000 (0 : UInt8)))
    (by
      intro c hc
      rw [List.eq_of_mem_replicate hc]
      constructor
      · intro hnil
        have hlen := congrArg List.length hnil
        simp only [List.length_replicate, List.length_nil] at hlen
        omega
      · rw [List.length_replicate]
        omega)
